import Mathlib

/-!
Verification of the xlwings bridge (`scripts/xlwings_bridge.py`).

The bridge is a command-dispatch layer over a desktop spreadsheet
application.  Its host calls (the xlwings library and, behind it, Excel)
are external: we model them with an oracle structure `Host` whose fields
give, for every primitive call a handler can issue, either the value the
host returns (`Except.ok`) or the exception it raises (`Except.error`,
carrying the Python `str(e)` message).  Side-effecting host calls
(opening a book, writing a range, saving, closing, chart mutations,
running a macro, probing Excel) are additionally recorded in an effect
trace `List Eff`, in the order the bridge issues them, each entry
carrying whether the call succeeded.  Every handler is translated
statement by statement from the Python source; the `try/except` wrapper
of each handler becomes the propagation of an `Except.error` result into
an `OpResult.fail` with the same message.  The `import xlwings` line
that each handler executes *before* its `try` block is modelled at the
dispatch site (`dispatchOp`): when the module is unavailable the process
crashes with an uncaught ImportError instead of printing a result.
-/

/-- A Python value as it crosses the bridge boundary: a scalar cell
value (text/number/bool rendered as a string), Python `None`, or a
(possibly nested) list, as returned by `rng.value`. -/
inductive PyVal where
  | scalar (s : String)
  | none
  | list (xs : List PyVal)

mutual

/-- Python `str()` rendering of a value, used by `read_range` when
`as_values` is false (`data = str(rng.value)`). -/
def pyStr : PyVal → String
  | PyVal.scalar s => s
  | PyVal.none => "None"
  | PyVal.list xs => "[" ++ pyStrList xs ++ "]"

/-- Comma-separated rendering of a Python list's elements. -/
def pyStrList : List PyVal → String
  | [] => ""
  | [x] => pyStr x
  | x :: y :: rest => pyStr x ++ ", " ++ pyStrList (y :: rest)

end

/-- One side-effecting host call issued by the bridge, with the name of
the target where relevant and whether the host reported success. -/
inductive Eff where
  | openBook (path : String) (ok : Bool)
  | setValue (sheetName addr : String) (ok : Bool)
  | save (ok : Bool)
  | close (ok : Bool)
  | chartAdd (ok : Bool)
  | chartSetSource (dataRange : String) (ok : Bool)
  | chartSetType (ct : String) (ok : Bool)
  | chartSetTitle (ok : Bool)
  | macroInvoke (nm : String) (args : List PyVal) (ok : Bool)
  | checkExcelCall

/-- A resolved range object (`ws.range(addr)`): each attribute access is
a host call that can raise. -/
structure RangeObj where
  value : Except String PyVal
  rowsCount : Except String Nat
  colsCount : Except String Nat
  left : Except String Int
  top : Except String Int

/-- A sheet's used range, as consumed by `get_active_info`. -/
structure UsedRange where
  address : String
  rows : Nat
  cols : Nat

/-- One entry of the `sheets` list built by `get_active_info`. -/
structure SheetInfo where
  name : String
  used_range : Option String
  rows : Nat
  cols : Nat

/-- A worksheet handle.  The chart fields give the host's response to
the chart calls `create_chart` issues on a chart freshly added to this
sheet. -/
structure Sheet where
  name : String
  rangeObj : String → Except String RangeObj
  setValue : String → PyVal → Except String Unit
  chartAddRes : Except String Unit
  chartSetSourceRes : String → Except String Unit
  chartSetTypeRes : String → Except String Unit
  chartSetTitleRes : String → Except String Unit
  usedRange : Except String (Option UsedRange)

/-- A workbook handle (`xw.Book`). -/
structure Book where
  name : String
  fullname : String
  sheetsList : List Sheet
  activeSheet : Except String Sheet
  sheetByName : String → Except String Sheet
  macroCall : String → List PyVal → Except String PyVal
  saveResult : Except String Unit
  closeResult : Except String Unit

/-- The host oracle: xlwings importability, the outcome of the Excel
probe in `check_excel`, and the workbook-resolution primitives. -/
structure Host where
  xlwingsAvailable : Bool
  excelOk : Bool
  openBook : String → Except String Book
  activeBook : Except String (Option Book)

/-- The operation-specific success fields of each handler's result
dictionary, one constructor per handler. -/
inductive Payload where
  | read (data : PyVal) (workbook sheetName rangeAddr : String) (rows cols : Nat)
  | write (message workbook sheetName : String)
  | macroRun (message : String) (returnValue : PyVal) (workbook : String)
  | active (workbook path : String) (sheetsInfo : List SheetInfo) (activeSheetName : String)
  | sheets (workbook : String) (sheetNames : List String) (count : Nat)
  | chart (message chartTypeEcho dataRange : String)

/-- A handler's result dictionary: `{"success": True, ...fields}` or
`{"success": False, "error": msg}`. -/
inductive OpResult where
  | ok (p : Payload)
  | fail (error : String)

/-- The error string the handlers return when no workbook is open
(`"没有打开的工作簿"`, the bridge's NoActiveDocument message). -/
def noActiveError : String := "没有打开的工作簿"

/-- Python truthiness of the `file_path` argument: `if file_path:` is
false for `None` and for the empty string. -/
def pathGiven (fp : Option String) : Bool :=
  match fp with
  | Option.none => false
  | Option.some s => !s.isEmpty

/-- The statement `wb = xw.books.active; if wb is None: return {...}` — the shared
fallback of every handler when no explicit path is given. -/
def resolveActive (h : Host) : Except String Book × List Eff :=
  match h.activeBook with
  | Except.ok (Option.some b) => (Except.ok b, [])
  | Except.ok Option.none => (Except.error noActiveError, [])
  | Except.error e => (Except.error e, [])

/-- The shared workbook-resolution block at the top of every handler:
`wb = xw.Book(file_path)` when a (truthy) path is given, else the
active-book fallback. -/
def resolveBook (h : Host) (fp : Option String) : Except String Book × List Eff :=
  match fp with
  | Option.some p =>
    if p.isEmpty then resolveActive h
    else
      match h.openBook p with
      | Except.ok b => (Except.ok b, [Eff.openBook p true])
      | Except.error e => (Except.error e, [Eff.openBook p false])
  | Option.none => resolveActive h

/-- The statement `ws = wb.sheets[sheet] if sheet else wb.sheets.active` (Python
truthiness: an empty sheet name also falls back to the active sheet). -/
def resolveSheet (wb : Book) (sheet : Option String) : Except String Sheet :=
  match sheet with
  | Option.some s => if s.isEmpty then wb.activeSheet else wb.sheetByName s
  | Option.none => wb.activeSheet

/-- The shared tail of every path-taking handler:
`if file_path: wb.close()` followed by `return result` — close happens
only when the path was truthy, and a raising close is caught by the
handler's `except`. -/
def closeIfOwned (wb : Book) (fp : Option String) (res : OpResult) (t : List Eff) :
    OpResult × List Eff :=
  if pathGiven fp then
    match wb.closeResult with
    | Except.ok _ => (res, t ++ [Eff.close true])
    | Except.error e => (OpResult.fail e, t ++ [Eff.close false])
  else (res, t)

/-- The value-shape normalization inside `read_range` (lines 63-69):
a non-list becomes `[[data]]`, a non-empty list whose head is not a
list becomes `[data]`, anything else passes through. -/
def normalizeData : PyVal → PyVal
  | PyVal.list [] => PyVal.list []
  | PyVal.list (x :: rest) =>
    match x with
    | PyVal.list _ => PyVal.list (x :: rest)
    | _ => PyVal.list [PyVal.list (x :: rest)]
  | v => PyVal.list [PyVal.list [v]]

/-- The `read` handler. -/
def read_range (h : Host) (file_path sheet : Option String) (range_addr : String)
    (as_values : Bool) : OpResult × List Eff :=
  match resolveBook h file_path with
  | (Except.error e, t) => (OpResult.fail e, t)
  | (Except.ok wb, t) =>
    match resolveSheet wb sheet with
    | Except.error e => (OpResult.fail e, t)
    | Except.ok ws =>
      match ws.rangeObj range_addr with
      | Except.error e => (OpResult.fail e, t)
      | Except.ok rng =>
        match rng.value with
        | Except.error e => (OpResult.fail e, t)
        | Except.ok v =>
          let data := if as_values then normalizeData v else PyVal.scalar (pyStr v)
          match rng.rowsCount with
          | Except.error e => (OpResult.fail e, t)
          | Except.ok rows =>
            match rng.colsCount with
            | Except.error e => (OpResult.fail e, t)
            | Except.ok cols =>
              closeIfOwned wb file_path
                (OpResult.ok (Payload.read data wb.name ws.name range_addr rows cols)) t

/-- The `write` handler. -/
def write_range (h : Host) (file_path sheet : Option String) (range_addr : String)
    (data : PyVal) (save : Bool) : OpResult × List Eff :=
  match resolveBook h file_path with
  | (Except.error e, t) => (OpResult.fail e, t)
  | (Except.ok wb, t) =>
    match resolveSheet wb sheet with
    | Except.error e => (OpResult.fail e, t)
    | Except.ok ws =>
      match ws.setValue range_addr data with
      | Except.error e => (OpResult.fail e, t ++ [Eff.setValue ws.name range_addr false])
      | Except.ok _ =>
        let t1 := t ++ [Eff.setValue ws.name range_addr true]
        let res := OpResult.ok
          (Payload.write ("已写入 " ++ ws.name ++ "!" ++ range_addr) wb.name ws.name)
        if save then
          match wb.saveResult with
          | Except.error e => (OpResult.fail e, t1 ++ [Eff.save false])
          | Except.ok _ => closeIfOwned wb file_path res (t1 ++ [Eff.save true])
        else
          closeIfOwned wb file_path res t1

/-- The branch `if args: result_value = macro(*args) else: result_value = macro()`
— both branches call the macro with the (possibly empty) argument
list. -/
def argListOf : Option (List PyVal) → List PyVal
  | Option.some l => l
  | Option.none => []

/-- The `run_macro` handler (`wb.macro(macro_name)` itself issues no
host call; the host is reached when the macro object is invoked). -/
def run_macro (h : Host) (file_path : Option String) (macro_name : String)
    (args : Option (List PyVal)) : OpResult × List Eff :=
  match resolveBook h file_path with
  | (Except.error e, t) => (OpResult.fail e, t)
  | (Except.ok wb, t) =>
    match wb.macroCall macro_name (argListOf args) with
    | Except.error e => (OpResult.fail e, t ++ [Eff.macroInvoke macro_name (argListOf args) false])
    | Except.ok rv =>
      closeIfOwned wb file_path
        (OpResult.ok (Payload.macroRun ("宏 \x27" ++ macro_name ++ "\x27 执行完成") rv wb.name))
        (t ++ [Eff.macroInvoke macro_name (argListOf args) true])

/-- The sheet-info loop of `get_active_info`: each `ws.used_range`
access is a host call that can raise; a raise aborts the whole
handler. -/
def buildSheetsInfo : List Sheet → Except String (List SheetInfo)
  | [] => Except.ok []
  | ws :: rest =>
    match ws.usedRange with
    | Except.error e => Except.error e
    | Except.ok ur =>
      match buildSheetsInfo rest with
      | Except.error e => Except.error e
      | Except.ok infos =>
        Except.ok
          ({ name := ws.name,
             used_range := Option.map UsedRange.address ur,
             rows := (match ur with | Option.some u => u.rows | Option.none => 0),
             cols := (match ur with | Option.some u => u.cols | Option.none => 0) } :: infos)

/-- The `get_active` handler (no `file_path` parameter, never closes). -/
def get_active_info (h : Host) : OpResult × List Eff :=
  match h.activeBook with
  | Except.error e => (OpResult.fail e, [])
  | Except.ok Option.none => (OpResult.fail noActiveError, [])
  | Except.ok (Option.some wb) =>
    match buildSheetsInfo wb.sheetsList with
    | Except.error e => (OpResult.fail e, [])
    | Except.ok infos =>
      match wb.activeSheet with
      | Except.error e => (OpResult.fail e, [])
      | Except.ok aws =>
        (OpResult.ok (Payload.active wb.name wb.fullname infos aws.name), [])

/-- The `list_sheets` handler. -/
def list_sheets (h : Host) (file_path : Option String) : OpResult × List Eff :=
  match resolveBook h file_path with
  | (Except.error e, t) => (OpResult.fail e, t)
  | (Except.ok wb, t) =>
    let sheets := wb.sheetsList.map Sheet.name
    closeIfOwned wb file_path (OpResult.ok (Payload.sheets wb.name sheets sheets.length)) t

/-- The chart-type lookup table with its `.get(chart_type, "line")`
fallback. -/
def chart_types (s : String) : String :=
  if s = "line" then "line"
  else if s = "bar" then "bar_clustered"
  else if s = "column" then "column_clustered"
  else if s = "pie" then "pie"
  else if s = "scatter" then "xy_scatter"
  else if s = "area" then "area"
  else "line"

/-- The tail of `create_chart` after the chart mutations: `wb.save()`
then the shared close-if-owned/return block.  The success dictionary
echoes the caller's original `chart_type` string. -/
def chartFinish (wb : Book) (ws : Sheet) (file_path : Option String)
    (chart_type data_range position : String) (t : List Eff) : OpResult × List Eff :=
  match wb.saveResult with
  | Except.error e => (OpResult.fail e, t ++ [Eff.save false])
  | Except.ok _ =>
    closeIfOwned wb file_path
      (OpResult.ok (Payload.chart ("图表已创建在 " ++ ws.name ++ "!" ++ position)
        chart_type data_range))
      (t ++ [Eff.save true])

/-- The `create_chart` handler.  `charts.add` first resolves the anchor
position range and reads its `left`/`top`; the handler then sets the
source data (resolving `data_range` on the way), the mapped chart type,
and, when `title` is truthy, the title; finally it saves
unconditionally. -/
def create_chart (h : Host) (file_path sheet : Option String)
    (data_range chart_type title position : String) : OpResult × List Eff :=
  match resolveBook h file_path with
  | (Except.error e, t) => (OpResult.fail e, t)
  | (Except.ok wb, t) =>
    match resolveSheet wb sheet with
    | Except.error e => (OpResult.fail e, t)
    | Except.ok ws =>
      let ct := chart_types chart_type
      match ws.rangeObj position with
      | Except.error e => (OpResult.fail e, t)
      | Except.ok prng =>
        match prng.left with
        | Except.error e => (OpResult.fail e, t)
        | Except.ok _ =>
          match prng.top with
          | Except.error e => (OpResult.fail e, t)
          | Except.ok _ =>
            match ws.chartAddRes with
            | Except.error e => (OpResult.fail e, t ++ [Eff.chartAdd false])
            | Except.ok _ =>
              let t1 := t ++ [Eff.chartAdd true]
              match ws.rangeObj data_range with
              | Except.error e => (OpResult.fail e, t1)
              | Except.ok _ =>
                match ws.chartSetSourceRes data_range with
                | Except.error e => (OpResult.fail e, t1 ++ [Eff.chartSetSource data_range false])
                | Except.ok _ =>
                  let t2 := t1 ++ [Eff.chartSetSource data_range true]
                  match ws.chartSetTypeRes ct with
                  | Except.error e => (OpResult.fail e, t2 ++ [Eff.chartSetType ct false])
                  | Except.ok _ =>
                    let t3 := t2 ++ [Eff.chartSetType ct true]
                    if title.isEmpty then
                      chartFinish wb ws file_path chart_type data_range position t3
                    else
                      match ws.chartSetTitleRes title with
                      | Except.error e => (OpResult.fail e, t3 ++ [Eff.chartSetTitle false])
                      | Except.ok _ =>
                        chartFinish wb ws file_path chart_type data_range position
                          (t3 ++ [Eff.chartSetTitle true])

/-- The probe `check_xlwings()`: whether `import xlwings` succeeds. -/
def check_xlwings (h : Host) : Bool := h.xlwingsAvailable

/-- The probe `check_excel()`: try importing xlwings and launching/quitting an
invisible Excel instance; an import failure returns `False` without
reaching the host, a probe failure returns `False`. -/
def check_excel (h : Host) : Bool × List Eff :=
  if h.xlwingsAvailable then (h.excelOk, [Eff.checkExcelCall]) else (false, [])

/-- The parameter bag decoded from `--params`: the set of keys present
plus the value carried under each handler-relevant key (absent keys
take the handler signature's defaults at the call site). -/
structure ParamBag where
  keys : List String
  file_path : Option String := Option.none
  sheet : Option String := Option.none
  range_addr : Option String := Option.none
  as_values : Option Bool := Option.none
  data : Option PyVal := Option.none
  save : Option Bool := Option.none
  macro_name : Option String := Option.none
  args : Option (List PyVal) := Option.none
  data_range : Option String := Option.none
  chart_type : Option String := Option.none
  title : Option String := Option.none
  position : Option String := Option.none

/-- The keyword-parameter names of each registered handler's Python
signature, `Option.none` for an operation name not in the registry. -/
def sigOf (op : String) : Option (List String) :=
  if op = "read" then Option.some ["file_path", "sheet", "range_addr", "as_values"]
  else if op = "write" then Option.some ["file_path", "sheet", "range_addr", "data", "save"]
  else if op = "run_macro" then Option.some ["file_path", "macro_name", "args"]
  else if op = "get_active" then Option.some []
  else if op = "list_sheets" then Option.some ["file_path"]
  else if op = "create_chart" then
    Option.some ["file_path", "sheet", "data_range", "chart_type", "title", "position"]
  else Option.none

/-- Whether `op_func(**params)` binds without a TypeError: every key of
the bag must name a parameter of the handler (all handler parameters
have defaults, so no key is required). -/
def keysOk (op : String) (p : ParamBag) : Bool :=
  match sigOf op with
  | Option.some sig => p.keys.all (fun k => sig.contains k)
  | Option.none => true

/-- Run the named handler on the bag's values, absent keys taking the
Python signature's default values. -/
def runHandler (h : Host) (op : String) (p : ParamBag) : OpResult × List Eff :=
  if op = "read" then
    read_range h p.file_path p.sheet (p.range_addr.getD "A1") (p.as_values.getD true)
  else if op = "write" then
    write_range h p.file_path p.sheet (p.range_addr.getD "A1") (p.data.getD PyVal.none)
      (p.save.getD true)
  else if op = "run_macro" then
    run_macro h p.file_path (p.macro_name.getD "") p.args
  else if op = "get_active" then
    get_active_info h
  else if op = "list_sheets" then
    list_sheets h p.file_path
  else if op = "create_chart" then
    create_chart h p.file_path p.sheet (p.data_range.getD "A1:B10") (p.chart_type.getD "line")
      (p.title.getD "") (p.position.getD "E1")
  else (OpResult.fail "", [])

/-- What the process prints: either the capability-check object
`{"xlwings_available": _, "excel_available": _}` or one operation
result object. -/
inductive Output where
  | checkResult (xlwingsAvailable excelAvailable : Bool)
  | opResult (r : OpResult)

/-- How one process invocation ends: exactly one result object printed
and a normal exit, or an uncaught Python exception (traceback on
stderr, no result object). -/
inductive MainOutcome where
  | printed (o : Output)
  | crash (msg : String)

/-- The message of the uncaught `TypeError` raised by `op_func(**params)`
when the bag holds a key the handler's signature does not accept. -/
def typeErrorMsg : String := "TypeError: unexpected keyword argument"

/-- The message of the uncaught `ModuleNotFoundError` raised by the
`import xlwings` at the top of a handler, outside its try block. -/
def importErrorMsg : String := "ModuleNotFoundError: No module named xlwings"

/-- Registry lookup and handler invocation (`operations.get` + 
`op_func(**params)`): unknown operations print an error object; a bad
keyword binding and a failing xlwings import escape as uncaught
exceptions before the handler's try block is entered. -/
def dispatchOp (h : Host) (op : String) (p : ParamBag) : MainOutcome × List Eff :=
  match sigOf op with
  | Option.none => (MainOutcome.printed (Output.opResult (OpResult.fail ("未知操作: " ++ op))), [])
  | Option.some sig =>
    if p.keys.all (fun k => sig.contains k) then
      if h.xlwingsAvailable then
        let r := runHandler h op p
        (MainOutcome.printed (Output.opResult r.1), r.2)
      else (MainOutcome.crash importErrorMsg, [])
    else (MainOutcome.crash typeErrorMsg, [])

/-- The body of `main()` after argument parsing: the `--check` mode prints the two
capability booleans (probing Excel only when xlwings imports); a
missing or empty (falsy) operation prints an error object; otherwise
the operation is dispatched. -/
def runMain (h : Host) (check : Bool) (operation : Option String) (p : ParamBag) :
    MainOutcome × List Eff :=
  if check then
    if check_xlwings h then
      ((MainOutcome.printed (Output.checkResult true (check_excel h).1)), (check_excel h).2)
    else (MainOutcome.printed (Output.checkResult false false), [])
  else
    match operation with
    | Option.none => (MainOutcome.printed (Output.opResult (OpResult.fail "未指定操作")), [])
    | Option.some op =>
      if op.isEmpty then (MainOutcome.printed (Output.opResult (OpResult.fail "未指定操作")), [])
      else dispatchOp h op p

/-- Whether an outcome is "exactly one result object printed, no
uncaught fault". -/
def MainOutcome.printsOne : MainOutcome → Bool
  | MainOutcome.printed _ => true
  | MainOutcome.crash _ => false

/-- Whether a handler result is the success variant. -/
def OpResult.isOk : OpResult → Bool
  | OpResult.ok _ => true
  | OpResult.fail _ => false

/-- A scalar cell value (anything that is not a Python list). -/
def isCellScalar : PyVal → Bool
  | PyVal.list _ => false
  | _ => true

/-- A flat row: a Python list whose elements are all scalars. -/
def isRowOfScalars : PyVal → Bool
  | PyVal.list cells => cells.all isCellScalar
  | _ => false

/-- Length of a row list (0 for non-lists). -/
def pvRowLen : PyVal → Nat
  | PyVal.list cells => cells.length
  | _ => 0

/-- A rectangular grid: a list of rows of scalars, all of equal
length. -/
def isGrid : PyVal → Bool
  | PyVal.list rows =>
    rows.all isRowOfScalars &&
      (match rows with
       | [] => true
       | r :: rest => rest.all (fun x => pvRowLen x == pvRowLen r))
  | _ => false

/-- The shapes `rng.value` can natively take for a rectangular range:
a bare scalar (single cell), a flat list of scalars (single row or
column), or a rectangular nested list (2-D block). -/
def isNative (v : PyVal) : Bool :=
  isCellScalar v || isRowOfScalars v || isGrid v

/-- Trace query: a completed (non-raising) close call. -/
def Eff.isCloseTrue : Eff → Bool
  | Eff.close true => true
  | _ => false

/-- Trace query: any save call, completed or raising. -/
def Eff.isSave : Eff → Bool
  | Eff.save _ => true
  | _ => false

/-- Trace query: a completed save call. -/
def Eff.isSaveTrue : Eff → Bool
  | Eff.save true => true
  | _ => false

/-- Trace query: the Excel probe of `check_excel`. -/
def Eff.isCheckCall : Eff → Bool
  | Eff.checkExcelCall => true
  | _ => false

/-- Trace query: every chart-type assignment in the trace carries the
host identifier "line". -/
def Eff.chartTypeIsLine : Eff → Bool
  | Eff.chartSetType c _ => c = "line"
  | _ => true

/-- A range object on which every host access succeeds. -/
def okRange : RangeObj :=
  { value := Except.ok (PyVal.scalar "1"), rowsCount := Except.ok 1,
    colsCount := Except.ok 1, left := Except.ok 0, top := Except.ok 0 }

/-- A sheet on which every host call succeeds. -/
def mkSheet (n : String) : Sheet :=
  { name := n,
    rangeObj := fun _ => Except.ok okRange,
    setValue := fun _ _ => Except.ok (),
    chartAddRes := Except.ok (),
    chartSetSourceRes := fun _ => Except.ok (),
    chartSetTypeRes := fun _ => Except.ok (),
    chartSetTitleRes := fun _ => Except.ok (),
    usedRange := Except.ok Option.none }

/-- A book on which every host call succeeds. -/
def mkBook (n : String) (ss : List Sheet) (s0 : Sheet) : Book :=
  { name := n, fullname := "/tmp/" ++ n, sheetsList := ss,
    activeSheet := Except.ok s0,
    sheetByName := fun _ => Except.ok s0,
    macroCall := fun _ _ => Except.ok PyVal.none,
    saveResult := Except.ok (),
    closeResult := Except.ok () }

/-- A one-sheet book on which everything succeeds. -/
def okBook : Book := mkBook "Book1" [mkSheet "Sheet1"] (mkSheet "Sheet1")

/-- A host on which everything succeeds, with `okBook` both openable
and active. -/
def okHost : Host :=
  { xlwingsAvailable := true, excelOk := true,
    openBook := fun _ => Except.ok okBook,
    activeBook := Except.ok (Option.some okBook) }

/-- A host whose application reports no active workbook. -/
def noBookHost : Host :=
  { xlwingsAvailable := true, excelOk := true,
    openBook := fun _ => Except.error "open failed",
    activeBook := Except.ok Option.none }

/-- A host with xlwings not importable. -/
def noXwHost : Host :=
  { xlwingsAvailable := false, excelOk := true,
    openBook := fun _ => Except.error "no xlwings",
    activeBook := Except.error "no xlwings" }

/-- A book whose macro invocations always raise with Excel's own
message. -/
def macroFailBook : Book :=
  { mkBook "Book1" [mkSheet "Sheet1"] (mkSheet "Sheet1") with
    macroCall := fun _ _ => Except.error "Cannot run the macro NoSuchMacro" }

/-- A host whose active book raises on every macro invocation. -/
def macroFailHost : Host :=
  { xlwingsAvailable := true, excelOk := true,
    openBook := fun _ => Except.ok macroFailBook,
    activeBook := Except.ok (Option.some macroFailBook) }

/-- A book with sheets named exactly `["Sheet1", "Summary", "Data"]`. -/
def threeBook : Book :=
  mkBook "Report.xlsx" [mkSheet "Sheet1", mkSheet "Summary", mkSheet "Data"] (mkSheet "Sheet1")

/-- A host whose active book is `threeBook`. -/
def threeHost : Host :=
  { xlwingsAvailable := true, excelOk := true,
    openBook := fun _ => Except.ok threeBook,
    activeBook := Except.ok (Option.some threeBook) }

/-- The conjunction of payload and trace facts about one `create_chart`
outcome that the chart claims need: a success payload echoes the
original `chart_type` and `data_range` strings; a success trace holds
the unconditional save, followed by exactly the close when the handle
is bridge-owned and by nothing otherwise; a failure under a
bridge-owned handle has no completed close; and, when the mapped host
identifier is "line", every chart-type assignment in the trace carries
"line". -/
def ChartClaims (ct dr : String) (fp : Option String) (out : OpResult × List Eff) : Prop :=
  (∀ m c d, out.1 = OpResult.ok (Payload.chart m c d) → c = ct ∧ d = dr) ∧
  (out.1.isOk = true →
    ∃ p q, out.2 = p ++ Eff.save true :: q ∧
      (pathGiven fp = true → q = [Eff.close true]) ∧
      (pathGiven fp = false → q = [])) ∧
  (pathGiven fp = true → out.1.isOk = false → (out.2.any Eff.isCloseTrue) = false) ∧
  (chart_types ct = "line" → (out.2.all Eff.chartTypeIsLine) = true)

/-- The conjunction of trace facts about one `write_range` outcome that
the write claims need: a success trace holds the completed range write,
followed by exactly the save when the save flag is set and the close
when the handle is bridge-owned; a failure under a bridge-owned handle
has no completed close; and with the save flag cleared no save call is
ever issued. -/
def WriteClaims (addr : String) (sv : Bool) (fp : Option String) (out : OpResult × List Eff) : Prop :=
  (out.1.isOk = true →
    ∃ p wsn, out.2 = p ++ Eff.setValue wsn addr true ::
      ((if sv then [Eff.save true] else []) ++
        (if pathGiven fp then [Eff.close true] else []))) ∧
  (pathGiven fp = true → out.1.isOk = false → (out.2.any Eff.isCloseTrue) = false) ∧
  (sv = false → (out.2.any Eff.isSave) = false)

theorem resolveBook_shape (h : Host) (fp : Option String) :
    (resolveBook h fp).2 = [] ∨ ∃ p b, (resolveBook h fp).2 = [Eff.openBook p b] := by
  unfold resolveBook resolveActive
  rcases fp with _ | p
  · rcases h.activeBook with e | (_ | b) <;> simp
  · by_cases hp : p.isEmpty
    · simp only [hp, if_true]
      rcases h.activeBook with e | (_ | b) <;> simp
    · simp only [hp, if_false]
      rcases h.openBook p with e | b <;> simp

theorem resolveBook_no_close (h : Host) (fp : Option String) :
    ((resolveBook h fp).2.any Eff.isCloseTrue) = false := by
  rcases resolveBook_shape h fp with h0 | ⟨p, b, h0⟩ <;> rw [h0] <;> simp [Eff.isCloseTrue]

theorem resolveBook_no_save (h : Host) (fp : Option String) :
    ((resolveBook h fp).2.any Eff.isSave) = false := by
  rcases resolveBook_shape h fp with h0 | ⟨p, b, h0⟩ <;> rw [h0] <;> simp [Eff.isSave]

theorem resolveBook_all_ctLine (h : Host) (fp : Option String) :
    ((resolveBook h fp).2.all Eff.chartTypeIsLine) = true := by
  rcases resolveBook_shape h fp with h0 | ⟨p, b, h0⟩ <;> rw [h0] <;> simp [Eff.chartTypeIsLine]

theorem closeIfOwned_cases (wb : Book) (fp : Option String) (res : OpResult) (t : List Eff)
    (hfp : pathGiven fp = true) :
    (closeIfOwned wb fp res t = (res, t ++ [Eff.close true])) ∨
    (∃ e, closeIfOwned wb fp res t = (OpResult.fail e, t ++ [Eff.close false])) := by
  rcases hc : wb.closeResult with e | u
  · right; exact ⟨e, by simp [closeIfOwned, hfp, hc]⟩
  · left; simp [closeIfOwned, hfp, hc]

theorem closeIfOwned_not_owned (wb : Book) (fp : Option String) (res : OpResult) (t : List Eff)
    (hfp : pathGiven fp = false) :
    closeIfOwned wb fp res t = (res, t) := by
  simp [closeIfOwned, hfp]

theorem closeIfOwned_fst (wb : Book) (fp : Option String) (res : OpResult) (t : List Eff) :
    (closeIfOwned wb fp res t).1 = res ∨ ∃ e, (closeIfOwned wb fp res t).1 = OpResult.fail e := by
  unfold closeIfOwned
  by_cases hp : pathGiven fp <;> simp [hp]
  rcases wb.closeResult with e | u <;> simp

theorem chartClaims_fail (ct dr : String) (fp : Option String) (e : String) (tr : List Eff)
    (h1 : (tr.any Eff.isCloseTrue) = false)
    (h2 : chart_types ct = "line" → (tr.all Eff.chartTypeIsLine) = true) :
    ChartClaims ct dr fp (OpResult.fail e, tr) := by
  refine ⟨?_, ?_, ?_, ?_⟩
  · intro m c d hc; simp at hc
  · intro hok; simp [OpResult.isOk] at hok
  · intro _ _; exact h1
  · exact h2

theorem chartClaims_finish (wb : Book) (ws : Sheet) (fp : Option String)
    (ct dr pos : String) (t3 : List Eff)
    (h1 : (t3.any Eff.isCloseTrue) = false)
    (h2 : chart_types ct = "line" → (t3.all Eff.chartTypeIsLine) = true) :
    ChartClaims ct dr fp (chartFinish wb ws fp ct dr pos t3) := by
  unfold chartFinish
  rcases hs : wb.saveResult with e | u <;> simp only [hs]
  · exact chartClaims_fail ct dr fp e _
      (by simp [List.any_append, h1, Eff.isCloseTrue])
      (fun hl => by simp [List.all_append, h2 hl, Eff.chartTypeIsLine])
  · by_cases hp : pathGiven fp
    · rcases closeIfOwned_cases wb fp
        (OpResult.ok (Payload.chart ("图表已创建在 " ++ ws.name ++ "!" ++ pos) ct dr))
        (t3 ++ [Eff.save true]) hp with hc | ⟨e, hc⟩
      · rw [hc]
        refine ⟨?_, ?_, ?_, ?_⟩
        · intro m c d hcp; simp at hcp; exact ⟨hcp.2.1.symm, hcp.2.2.symm⟩
        · intro _
          exact ⟨t3, [Eff.close true], by simp, fun _ => rfl,
            fun hf => by rw [hp] at hf; exact absurd hf (by simp)⟩
        · intro _ hk; simp [OpResult.isOk] at hk
        · intro hl; simp [List.all_append, h2 hl, Eff.chartTypeIsLine]
      · rw [hc]
        exact chartClaims_fail ct dr fp e _
          (by simp [List.any_append, h1, Eff.isCloseTrue])
          (fun hl => by simp [List.all_append, h2 hl, Eff.chartTypeIsLine])
    · rw [closeIfOwned_not_owned wb fp _ _ (by simpa using hp)]
      refine ⟨?_, ?_, ?_, ?_⟩
      · intro m c d hcp; simp at hcp; exact ⟨hcp.2.1.symm, hcp.2.2.symm⟩
      · intro _
        exact ⟨t3, [], by simp, fun hf => absurd hf (by simpa using hp), fun _ => rfl⟩
      · intro hf; exact absurd hf (by simpa using hp)
      · intro hl; simp [List.all_append, h2 hl, Eff.chartTypeIsLine]

theorem create_chart_claims (h : Host) (fp sh : Option String) (dr ct ti pos : String) :
    ChartClaims ct dr fp (create_chart h fp sh dr ct ti pos) := by
  have hnc := resolveBook_no_close h fp
  have hctl := resolveBook_all_ctLine h fp
  unfold create_chart
  rcases hb : resolveBook h fp with ⟨rb, t⟩
  rw [hb] at hnc hctl
  rcases rb with e | wb <;> simp only
  · exact chartClaims_fail ct dr fp e t hnc (fun _ => hctl)
  · rcases hsh : resolveSheet wb sh with e | ws <;> simp only [hsh]
    · exact chartClaims_fail ct dr fp e t hnc (fun _ => hctl)
    · rcases hpr : ws.rangeObj pos with e | prng <;> simp only [hpr]
      · exact chartClaims_fail ct dr fp e t hnc (fun _ => hctl)
      · rcases hl : prng.left with e | lv <;> simp only [hl]
        · exact chartClaims_fail ct dr fp e t hnc (fun _ => hctl)
        · rcases ht : prng.top with e | tv <;> simp only [ht]
          · exact chartClaims_fail ct dr fp e t hnc (fun _ => hctl)
          · rcases ha : ws.chartAddRes with e | av <;> simp only [ha]
            · exact chartClaims_fail ct dr fp e _
                (by simp [List.any_append, hnc, Eff.isCloseTrue])
                (fun _ => by simp [List.all_append, hctl, Eff.chartTypeIsLine])
            · rcases hdr : ws.rangeObj dr with e | drng <;> simp only [hdr]
              · exact chartClaims_fail ct dr fp e _
                  (by simp [List.any_append, hnc, Eff.isCloseTrue])
                  (fun _ => by simp [List.all_append, hctl, Eff.chartTypeIsLine])
              · rcases hss : ws.chartSetSourceRes dr with e | sv <;> simp only [hss]
                · exact chartClaims_fail ct dr fp e _
                    (by simp [List.any_append, hnc, Eff.isCloseTrue])
                    (fun _ => by simp [List.all_append, hctl, Eff.chartTypeIsLine])
                · rcases hst : ws.chartSetTypeRes (chart_types ct) with e | tyv <;> simp only [hst]
                  · exact chartClaims_fail ct dr fp e _
                      (by simp [List.any_append, hnc, Eff.isCloseTrue])
                      (fun hl => by
                        simp [List.all_append, hctl, Eff.chartTypeIsLine, hl])
                  · by_cases hti : ti.isEmpty <;> simp only [hti, if_true, if_false]
                    · exact chartClaims_finish wb ws fp ct dr pos _
                        (by simp [List.any_append, hnc, Eff.isCloseTrue])
                        (fun hl => by
                          simp [List.all_append, hctl, Eff.chartTypeIsLine, hl])
                    · rcases htt : ws.chartSetTitleRes ti with e | ttv <;> simp only [htt]
                      · exact chartClaims_fail ct dr fp e _
                          (by simp [List.any_append, hnc, Eff.isCloseTrue])
                          (fun hl => by
                            simp [List.all_append, hctl, Eff.chartTypeIsLine, hl])
                      · exact chartClaims_finish wb ws fp ct dr pos _
                          (by simp [List.any_append, hnc, Eff.isCloseTrue])
                          (fun hl => by
                            simp [List.all_append, hctl, Eff.chartTypeIsLine, hl])

theorem writeClaims_fail (addr : String) (sv : Bool) (fp : Option String) (e : String)
    (tr : List Eff)
    (h1 : (tr.any Eff.isCloseTrue) = false)
    (h2 : sv = false → (tr.any Eff.isSave) = false) :
    WriteClaims addr sv fp (OpResult.fail e, tr) := by
  refine ⟨?_, ?_, ?_⟩
  · intro hok; simp [OpResult.isOk] at hok
  · intro _ _; exact h1
  · exact h2

theorem write_claims (h : Host) (fp sh : Option String) (addr : String) (d : PyVal) (sv : Bool) :
    WriteClaims addr sv fp (write_range h fp sh addr d sv) := by
  have hnc := resolveBook_no_close h fp
  have hnsv := resolveBook_no_save h fp
  unfold write_range
  rcases hb : resolveBook h fp with ⟨rb, t⟩
  rw [hb] at hnc hnsv
  rcases rb with e | wb <;> simp only
  · exact writeClaims_fail addr sv fp e t hnc (fun _ => hnsv)
  · rcases hsh : resolveSheet wb sh with e | ws <;> simp only [hsh]
    · exact writeClaims_fail addr sv fp e t hnc (fun _ => hnsv)
    · rcases hsv0 : ws.setValue addr d with e | u0 <;> simp only [hsv0]
      · exact writeClaims_fail addr sv fp e _
          (by simp [List.any_append, hnc, Eff.isCloseTrue])
          (fun _ => by simp [List.any_append, hnsv, Eff.isSave])
      · cases sv <;> simp only [if_true, if_false, Bool.false_eq_true]
        · by_cases hp : pathGiven fp = true
          · rcases closeIfOwned_cases wb fp
              (OpResult.ok (Payload.write ("已写入 " ++ ws.name ++ "!" ++ addr) wb.name ws.name))
              (t ++ [Eff.setValue ws.name addr true]) hp with hc | ⟨e, hc⟩
            · rw [hc]
              refine ⟨?_, ?_, ?_⟩
              · intro _; exact ⟨t, ws.name, by simp [hp]⟩
              · intro _ hk; simp [OpResult.isOk] at hk
              · intro _; simp [List.any_append, hnsv, Eff.isSave]
            · rw [hc]
              exact writeClaims_fail addr false fp e _
                (by simp [List.any_append, hnc, Eff.isCloseTrue])
                (fun _ => by simp [List.any_append, hnsv, Eff.isSave])
          · have hp' : pathGiven fp = false := by simpa using hp
            rw [closeIfOwned_not_owned wb fp _ _ hp']
            refine ⟨?_, ?_, ?_⟩
            · intro _; exact ⟨t, ws.name, by simp [hp']⟩
            · intro hf; exact absurd hf hp
            · intro _; simp [List.any_append, hnsv, Eff.isSave]
        · rcases hsr : wb.saveResult with e | u1 <;> simp only [hsr]
          · exact writeClaims_fail addr true fp e _
              (by simp [List.any_append, hnc, Eff.isCloseTrue])
              (fun hff => by simp at hff)
          · by_cases hp : pathGiven fp = true
            · rcases closeIfOwned_cases wb fp
                (OpResult.ok (Payload.write ("已写入 " ++ ws.name ++ "!" ++ addr) wb.name ws.name))
                ((t ++ [Eff.setValue ws.name addr true]) ++ [Eff.save true]) hp with hc | ⟨e, hc⟩
              · rw [hc]
                refine ⟨?_, ?_, ?_⟩
                · intro _; exact ⟨t, ws.name, by simp [hp]⟩
                · intro _ hk; simp [OpResult.isOk] at hk
                · intro hff; simp at hff
              · rw [hc]
                exact writeClaims_fail addr true fp e _
                  (by simp [List.any_append, hnc, Eff.isCloseTrue])
                  (fun hff => by simp at hff)
            · have hp' : pathGiven fp = false := by simpa using hp
              rw [closeIfOwned_not_owned wb fp _ _ hp']
              refine ⟨?_, ?_, ?_⟩
              · intro _; exact ⟨t, ws.name, by simp [hp']⟩
              · intro hf; exact absurd hf hp
              · intro hff; simp at hff

theorem read_c4 (h : Host) (fp sh : Option String) (addr : String) (av : Bool)
    (hfp : pathGiven fp = true) :
    ((read_range h fp sh addr av).1.isOk = true →
      ∃ p, (read_range h fp sh addr av).2 = p ++ [Eff.close true]) ∧
    ((read_range h fp sh addr av).1.isOk = false →
      ((read_range h fp sh addr av).2.any Eff.isCloseTrue) = false) := by
  have hnc := resolveBook_no_close h fp
  unfold read_range
  rcases hb : resolveBook h fp with ⟨rb, t⟩
  rw [hb] at hnc
  rcases rb with e | wb
  · simp [OpResult.isOk, hnc]
  · simp only
    rcases hsheet : resolveSheet wb sh with e | ws <;> simp only [hsheet]
    · simp [OpResult.isOk, hnc]
    · rcases hrng : ws.rangeObj addr with e | rng <;> simp only [hrng]
      · simp [OpResult.isOk, hnc]
      · rcases hv : rng.value with e | v <;> simp only [hv]
        · simp [OpResult.isOk, hnc]
        · rcases hrow : rng.rowsCount with e | rows <;> simp only [hrow]
          · simp [OpResult.isOk, hnc]
          · rcases hcol : rng.colsCount with e | cols <;> simp only [hcol]
            · simp [OpResult.isOk, hnc]
            · rcases closeIfOwned_cases wb fp
                (OpResult.ok (Payload.read (if av then normalizeData v else PyVal.scalar (pyStr v))
                  wb.name ws.name addr rows cols)) t hfp with hco | ⟨e, hco⟩
              · rw [hco]; constructor
                · intro _; exact ⟨t, rfl⟩
                · intro hk; simp [OpResult.isOk] at hk
              · rw [hco]; constructor
                · intro hk; simp [OpResult.isOk] at hk
                · intro _; simp [List.any_append, hnc, Eff.isCloseTrue]

theorem macro_c4 (h : Host) (fp : Option String) (nm : String) (ar : Option (List PyVal))
    (hfp : pathGiven fp = true) :
    (( run_macro h fp nm ar).1.isOk = true →
      ∃ p, ( run_macro h fp nm ar).2 = p ++ [Eff.close true]) ∧
    (( run_macro h fp nm ar).1.isOk = false →
      (( run_macro h fp nm ar).2.any Eff.isCloseTrue) = false) := by
  have hnc := resolveBook_no_close h fp
  unfold run_macro
  rcases hb : resolveBook h fp with ⟨rb, t⟩
  rw [hb] at hnc
  rcases rb with e | wb <;> simp only
  · simp [OpResult.isOk, hnc]
  · rcases hm : wb.macroCall nm (argListOf ar) with e | rv <;> simp only [hm]
    · constructor
      · intro hk; simp [OpResult.isOk] at hk
      · intro _; simp [List.any_append, hnc, Eff.isCloseTrue]
    · rcases closeIfOwned_cases wb fp
        (OpResult.ok (Payload.macroRun ("宏 \x27" ++ nm ++ "\x27 执行完成") rv wb.name))
        (t ++ [Eff.macroInvoke nm (argListOf ar) true]) hfp with hco | ⟨e, hco⟩
      · rw [hco]; constructor
        · intro _; exact ⟨t ++ [Eff.macroInvoke nm (argListOf ar) true], rfl⟩
        · intro hk; simp [OpResult.isOk] at hk
      · rw [hco]; constructor
        · intro hk; simp [OpResult.isOk] at hk
        · intro _; simp [List.any_append, hnc, Eff.isCloseTrue]

theorem list_c4 (h : Host) (fp : Option String) (hfp : pathGiven fp = true) :
    ((list_sheets h fp).1.isOk = true →
      ∃ p, (list_sheets h fp).2 = p ++ [Eff.close true]) ∧
    ((list_sheets h fp).1.isOk = false →
      ((list_sheets h fp).2.any Eff.isCloseTrue) = false) := by
  have hnc := resolveBook_no_close h fp
  unfold list_sheets
  rcases hb : resolveBook h fp with ⟨rb, t⟩
  rw [hb] at hnc
  rcases rb with e | wb <;> simp only
  · simp [OpResult.isOk, hnc]
  · rcases closeIfOwned_cases wb fp
      (OpResult.ok (Payload.sheets wb.name (wb.sheetsList.map Sheet.name)
        (wb.sheetsList.map Sheet.name).length)) t hfp with hco | ⟨e, hco⟩
    · rw [hco]; constructor
      · intro _; exact ⟨t, rfl⟩
      · intro hk; simp [OpResult.isOk] at hk
    · rw [hco]; constructor
      · intro hk; simp [OpResult.isOk] at hk
      · intro _; simp [List.any_append, hnc, Eff.isCloseTrue]

theorem read_data_normalized (h : Host) (fp sh : Option String) (addr : String) :
    ∀ d w sn rr rows cols,
      (read_range h fp sh addr true).1 = OpResult.ok (Payload.read d w sn rr rows cols) →
      ∃ v, d = normalizeData v := by
  intro d w sn rr rows cols hc
  unfold read_range at hc
  rcases hb : resolveBook h fp with ⟨rb, t⟩
  rw [hb] at hc
  rcases rb with e | wb <;> simp only at hc
  · simp at hc
  · rcases hsheet : resolveSheet wb sh with e | ws <;> rw [hsheet] at hc <;> simp only at hc
    · simp at hc
    · rcases hrng : ws.rangeObj addr with e | rng <;> rw [hrng] at hc <;> simp only at hc
      · simp at hc
      · rcases hv : rng.value with e | v <;> rw [hv] at hc <;> simp only at hc
        · simp at hc
        · rcases hrow : rng.rowsCount with e | rows0 <;> rw [hrow] at hc <;> simp only at hc
          · simp at hc
          · rcases hcol : rng.colsCount with e | cols0 <;> rw [hcol] at hc <;> simp only at hc
            · simp at hc
            · simp only [if_true] at hc
              rcases closeIfOwned_fst wb fp
                (OpResult.ok (Payload.read (normalizeData v) wb.name ws.name addr rows0 cols0)) t
                  with h1 | ⟨e, h1⟩
              · rw [h1] at hc
                simp at hc
                exact ⟨v, hc.1.symm⟩
              · rw [h1] at hc; simp at hc

theorem isGrid_normalizeData (v : PyVal) (hv : isNative v = true) :
    isGrid (normalizeData v) = true := by
  cases v with
  | scalar s => simp [normalizeData, isGrid, isRowOfScalars, isCellScalar]
  | none => simp [normalizeData, isGrid, isRowOfScalars, isCellScalar]
  | list xs =>
    cases xs with
    | nil => simp [normalizeData, isGrid]
    | cons x rest =>
      simp only [isNative, isCellScalar, Bool.false_or, Bool.or_eq_true] at hv
      cases x with
      | scalar s =>
        rcases hv with hv | hv
        · simp [normalizeData, isGrid, hv]
        · simp [isGrid, isRowOfScalars] at hv
      | none =>
        rcases hv with hv | hv
        · simp [normalizeData, isGrid, hv]
        · simp [isGrid, isRowOfScalars] at hv
      | list ys =>
        rcases hv with hv | hv
        · simp [isRowOfScalars, isCellScalar] at hv
        · simpa [normalizeData] using hv

theorem normalizeData_scalar (v : PyVal) (hv : isCellScalar v = true) :
    normalizeData v = PyVal.list [PyVal.list [v]] := by
  cases v with
  | scalar s => rfl
  | none => rfl
  | list xs => simp [isCellScalar] at hv

theorem normalizeData_grid (v : PyVal) (hv : isGrid v = true) :
    normalizeData v = v := by
  cases v with
  | scalar s => simp [isGrid] at hv
  | none => simp [isGrid] at hv
  | list xs =>
    cases xs with
    | nil => rfl
    | cons x rest =>
      cases x with
      | scalar s => simp [isGrid, isRowOfScalars, isCellScalar] at hv
      | none => simp [isGrid, isRowOfScalars, isCellScalar] at hv
      | list ys => rfl

/-- C1 fails on the code: with the unrecognized chart_type "bogus" on a
host where every call succeeds, `create_chart` succeeds but its success
result echoes "bogus", not the normalized "line". -/
theorem C1_counterexample :
    ((create_chart okHost Option.none Option.none "A1:B10" "bogus" "" "E1").1 =
      OpResult.ok (Payload.chart "图表已创建在 Sheet1!E1" "bogus" "A1:B10")) ∧
    ¬ ("bogus" = "line") := ⟨rfl, by decide⟩

/-- C1 (amended): for every `create_chart` invocation whose chart_type
is not one of the six recognized names, the type lookup cannot fail and
normalizes the host-facing identifier to "line" (so every chart-type
assignment sent to the host carries "line"), and the success result
echoes the caller's original chart_type string rather than "line". -/
theorem C1_theorem (h : Host) (fp sh : Option String) (dr ct ti pos : String)
    (h1 : ct ≠ "line") (h2 : ct ≠ "bar") (h3 : ct ≠ "column") (h4 : ct ≠ "pie")
    (h5 : ct ≠ "scatter") (h6 : ct ≠ "area") :
    chart_types ct = "line" ∧
    ((create_chart h fp sh dr ct ti pos).2.all Eff.chartTypeIsLine) = true ∧
    (∀ m c d, (create_chart h fp sh dr ct ti pos).1 = OpResult.ok (Payload.chart m c d) →
      c = ct) := by
  have hline : chart_types ct = "line" := by
    simp [chart_types, h1, h2, h3, h4, h5, h6]
  have hm := create_chart_claims h fp sh dr ct ti pos
  exact ⟨hline, hm.2.2.2 hline, fun m c d hc => (hm.1 m c d hc).1⟩

/-- C1 instantiated at the unrecognized name "bogus" on a concrete
host. -/
theorem C1_witness :
    chart_types "bogus" = "line" ∧
    ((create_chart okHost Option.none Option.none "A1:B10" "bogus" "" "E1").2.all
      Eff.chartTypeIsLine) = true := by
  have h := C1_theorem okHost Option.none Option.none "A1:B10" "bogus" "" "E1"
    (by decide) (by decide) (by decide) (by decide) (by decide) (by decide)
  exact ⟨h.1, h.2.1⟩

/-- C3 fails on the code: `read` with `as_values=false` returns the
string rendering of the cell value — a bare scalar at the boundary, not
a grid. -/
theorem C3_counterexample :
    ((read_range okHost Option.none Option.none "A1" false).1 =
      OpResult.ok (Payload.read (PyVal.scalar "1") "Book1" "Sheet1" "A1" 1 1)) ∧
    isGrid (PyVal.scalar "1") = false ∧ isCellScalar (PyVal.scalar "1") = true :=
  ⟨rfl, rfl, rfl⟩

/-- C3 (amended): for every `read` with `as_values=true` (the default),
the returned data payload is the normalization of the host's raw value,
and normalization turns every native host shape (scalar, flat list of
scalars, rectangular nested grid) into a rectangular grid: a scalar
becomes the 1×1 grid `[[v]]`, and a grid passes through unchanged —
never a bare scalar. -/
theorem C3_theorem :
    (∀ v, isNative v = true → isGrid (normalizeData v) = true) ∧
    (∀ v, isCellScalar v = true → normalizeData v = PyVal.list [PyVal.list [v]]) ∧
    (∀ v, isGrid v = true → normalizeData v = v) ∧
    (∀ (h : Host) (fp sh : Option String) (addr : String) d w sn rr rows cols,
      (read_range h fp sh addr true).1 = OpResult.ok (Payload.read d w sn rr rows cols) →
      ∃ v, d = normalizeData v) :=
  ⟨isGrid_normalizeData, normalizeData_scalar, normalizeData_grid, read_data_normalized⟩

/-- C3 instantiated at a concrete scalar and a concrete successful
read. -/
theorem C3_witness :
    isGrid (normalizeData (PyVal.scalar "7")) = true ∧
    normalizeData (PyVal.scalar "7") = PyVal.list [PyVal.list [PyVal.scalar "7"]] ∧
    (∃ v, PyVal.list [PyVal.list [PyVal.scalar "1"]] = normalizeData v) :=
  ⟨C3_theorem.1 (PyVal.scalar "7") rfl, C3_theorem.2.1 (PyVal.scalar "7") rfl,
    C3_theorem.2.2.2 okHost Option.none Option.none "A1"
      (PyVal.list [PyVal.list [PyVal.scalar "1"]]) "Book1" "Sheet1" "A1" 1 1 rfl⟩

/-- C4 fails on the code as stated: `write` with `save=false` on a
bridge-owned handle succeeds and closes the document without saving
first, although `write` is a mutating operation. -/
theorem C4_counterexample :
    ((write_range okHost (Option.some "b.xlsx") Option.none "A1"
      (PyVal.scalar "5") false).1.isOk = true) ∧
    (((write_range okHost (Option.some "b.xlsx") Option.none "A1"
      (PyVal.scalar "5") false).2.any Eff.isCloseTrue) = true) ∧
    (((write_range okHost (Option.some "b.xlsx") Option.none "A1"
      (PyVal.scalar "5") false).2.any Eff.isSave) = false) := ⟨rfl, rfl, rfl⟩

/-- C4 (amended): for every handler (read, write, run_macro,
list_sheets, create_chart) invoked with a truthy explicit file path: on
success the document's completed close is the last host call before the
result is returned, preceded by a save for `write` with `save=true` and
for `create_chart` — while `write` with `save=false` closes without
saving; on failure no completed close occurs, so the document may be
left open. -/
theorem C4_theorem :
    (∀ (h : Host) (fp sh : Option String) (addr : String) (av : Bool), pathGiven fp = true →
      ((read_range h fp sh addr av).1.isOk = true →
        ∃ p, (read_range h fp sh addr av).2 = p ++ [Eff.close true]) ∧
      ((read_range h fp sh addr av).1.isOk = false →
        ((read_range h fp sh addr av).2.any Eff.isCloseTrue) = false)) ∧
    (∀ (h : Host) (fp sh : Option String) (addr : String) (d : PyVal), pathGiven fp = true →
      ((write_range h fp sh addr d true).1.isOk = true →
        ∃ p, (write_range h fp sh addr d true).2 = p ++ [Eff.save true, Eff.close true]) ∧
      ((write_range h fp sh addr d false).1.isOk = true →
        ∃ p, (write_range h fp sh addr d false).2 = p ++ [Eff.close true]) ∧
      (∀ sv, (write_range h fp sh addr d sv).1.isOk = false →
        ((write_range h fp sh addr d sv).2.any Eff.isCloseTrue) = false)) ∧
    (∀ (h : Host) (fp : Option String) (nm : String) (ar : Option (List PyVal)),
      pathGiven fp = true →
      (( run_macro h fp nm ar).1.isOk = true →
        ∃ p, ( run_macro h fp nm ar).2 = p ++ [Eff.close true]) ∧
      (( run_macro h fp nm ar).1.isOk = false →
        (( run_macro h fp nm ar).2.any Eff.isCloseTrue) = false)) ∧
    (∀ (h : Host) (fp : Option String), pathGiven fp = true →
      ((list_sheets h fp).1.isOk = true →
        ∃ p, (list_sheets h fp).2 = p ++ [Eff.close true]) ∧
      ((list_sheets h fp).1.isOk = false →
        ((list_sheets h fp).2.any Eff.isCloseTrue) = false)) ∧
    (∀ (h : Host) (fp sh : Option String) (dr ct ti pos : String), pathGiven fp = true →
      ((create_chart h fp sh dr ct ti pos).1.isOk = true →
        ∃ p, (create_chart h fp sh dr ct ti pos).2 = p ++ [Eff.save true, Eff.close true]) ∧
      ((create_chart h fp sh dr ct ti pos).1.isOk = false →
        ((create_chart h fp sh dr ct ti pos).2.any Eff.isCloseTrue) = false)) := by
  refine ⟨fun h fp sh addr av hfp => read_c4 h fp sh addr av hfp, ?_,
    fun h fp nm ar hfp => macro_c4 h fp nm ar hfp,
    fun h fp hfp => list_c4 h fp hfp, ?_⟩
  · intro h fp sh addr d hfp
    refine ⟨?_, ?_, ?_⟩
    · intro hok
      obtain ⟨p, wsn, hp⟩ := (write_claims h fp sh addr d true).1 hok
      refine ⟨p ++ [Eff.setValue wsn addr true], ?_⟩
      rw [hp]; simp [hfp]
    · intro hok
      obtain ⟨p, wsn, hp⟩ := (write_claims h fp sh addr d false).1 hok
      refine ⟨p ++ [Eff.setValue wsn addr true], ?_⟩
      rw [hp]; simp [hfp]
    · intro sv hfail
      exact (write_claims h fp sh addr d sv).2.1 hfp hfail
  · intro h fp sh dr ct ti pos hfp
    have cm := create_chart_claims h fp sh dr ct ti pos
    refine ⟨?_, fun hfail => cm.2.2.1 hfp hfail⟩
    intro hok
    obtain ⟨p, q, hp, hq1, _⟩ := cm.2.1 hok
    refine ⟨p, ?_⟩
    rw [hp, hq1 hfp]

/-- C4 instantiated: a successful bridge-owned read ends its trace with
the completed close. -/
theorem C4_witness :
    ∃ p, (read_range okHost (Option.some "b.xlsx") Option.none "A1" true).2 =
      p ++ [Eff.close true] :=
  (C4_theorem.1 okHost (Option.some "b.xlsx") Option.none "A1" true rfl).1 rfl

/-- C5: `write` with `save=false` never issues a save call, and `write`
with `save=true`, when it succeeds, issues the save directly after the
completed range write. -/
theorem C5_theorem :
    (∀ (h : Host) (fp sh : Option String) (addr : String) (d : PyVal),
      ((write_range h fp sh addr d false).2.any Eff.isSave) = false) ∧
    (∀ (h : Host) (fp sh : Option String) (addr : String) (d : PyVal),
      (write_range h fp sh addr d true).1.isOk = true →
      ∃ p q wsn, (write_range h fp sh addr d true).2 =
        p ++ Eff.setValue wsn addr true :: Eff.save true :: q) := by
  constructor
  · intro h fp sh addr d
    exact (write_claims h fp sh addr d false).2.2 rfl
  · intro h fp sh addr d hok
    obtain ⟨p, wsn, hp⟩ := (write_claims h fp sh addr d true).1 hok
    refine ⟨p, (if pathGiven fp then [Eff.close true] else []), wsn, ?_⟩
    rw [hp]; simp

/-- C5 instantiated on a concrete host: no save with the flag cleared,
save right after the write with the flag set. -/
theorem C5_witness :
    ((write_range okHost Option.none Option.none "A1" (PyVal.scalar "2") false).2.any
      Eff.isSave) = false ∧
    (∃ p q wsn, (write_range okHost Option.none Option.none "A1" (PyVal.scalar "2") true).2 =
      p ++ Eff.setValue wsn "A1" true :: Eff.save true :: q) :=
  ⟨C5_theorem.1 okHost Option.none Option.none "A1" (PyVal.scalar "2"),
    C5_theorem.2 okHost Option.none Option.none "A1" (PyVal.scalar "2") rfl⟩

/-- C10: every successful `create_chart` issues a completed save — also
when no explicit path was given, so the already-open document's state is
persisted — unlike `write`, which issues no save at all when its save
flag is false. -/
theorem C10_theorem :
    (∀ (h : Host) (fp sh : Option String) (dr ct ti pos : String),
      (create_chart h fp sh dr ct ti pos).1.isOk = true →
      ((create_chart h fp sh dr ct ti pos).2.any Eff.isSaveTrue) = true) ∧
    (∀ (h : Host) (fp sh : Option String) (addr : String) (d : PyVal),
      ((write_range h fp sh addr d false).2.any Eff.isSave) = false) := by
  constructor
  · intro h fp sh dr ct ti pos hok
    obtain ⟨p, q, hp, _, _⟩ := (create_chart_claims h fp sh dr ct ti pos).2.1 hok
    rw [hp]
    simp [List.any_append, Eff.isSaveTrue]
  · intro h fp sh addr d
    exact (write_claims h fp sh addr d false).2.2 rfl

/-- C10 instantiated: a successful chart creation on the active (not
bridge-owned) workbook still saves it. -/
theorem C10_witness :
    ((create_chart okHost Option.none Option.none "A1:B10" "line" "" "E1").2.any
      Eff.isSaveTrue) = true :=
  C10_theorem.1 okHost Option.none Option.none "A1:B10" "line" "" "E1" rfl

/-- C2 fails on the code as stated: an operation name plus a parameter
bag holding a key outside the handler's signature makes
`op_func(**params)` raise an uncaught TypeError — the process crashes
without printing a result object. -/
theorem C2_counterexample :
    runMain okHost false (Option.some "read") { keys := ["bogus"] } =
      (MainOutcome.crash typeErrorMsg, []) := rfl

/-- C2 (amended): for every invocation with an operation name and a
parameter bag whose keys all bind to the handler's signature, when the
automation module imports, every failure during handling is converted
into a failure result and the process prints exactly one result object
— nothing propagates as an uncaught fault. -/
theorem C2_theorem (h : Host) (op : String) (p : ParamBag)
    (hxw : h.xlwingsAvailable = true) (hk : keysOk op p = true) :
    ((runMain h false (Option.some op) p).1.printsOne) = true := by
  unfold runMain dispatchOp
  unfold keysOk at hk
  by_cases hop : op.isEmpty = true
  · simp [hop, MainOutcome.printsOne]
  · rcases hs : sigOf op with _ | sig <;> rw [hs] at hk
    · simp [hop, hs, MainOutcome.printsOne]
    · simp only at hk
      simp only [Bool.false_eq_true, if_false, hop, hs]
      simp only [hk, eq_self_iff_true, if_true, hxw]
      simp [MainOutcome.printsOne]

/-- C2 instantiated at a concrete well-formed invocation. -/
theorem C2_witness :
    ((runMain okHost false (Option.some "read") { keys := ["file_path"] }).1.printsOne) = true :=
  C2_theorem okHost "read" { keys := ["file_path"] } rfl rfl

/-- C6: whenever the host reports no active workbook, every operation
resolved without an explicit path returns exactly the NoActiveDocument
failure result, with no host effect issued. -/
theorem C6_theorem (h : Host) (hab : h.activeBook = Except.ok Option.none) :
    (∀ sh addr av, read_range h Option.none sh addr av = (OpResult.fail noActiveError, [])) ∧
    (∀ sh addr d sv, write_range h Option.none sh addr d sv =
      (OpResult.fail noActiveError, [])) ∧
    (∀ nm ar, run_macro h Option.none nm ar = (OpResult.fail noActiveError, [])) ∧
    (get_active_info h = (OpResult.fail noActiveError, [])) ∧
    (list_sheets h Option.none = (OpResult.fail noActiveError, [])) ∧
    (∀ sh dr ct ti pos, create_chart h Option.none sh dr ct ti pos =
      (OpResult.fail noActiveError, [])) := by
  have hres : resolveBook h Option.none = (Except.error noActiveError, []) := by
    unfold resolveBook resolveActive
    rw [hab]
  refine ⟨?_, ?_, ?_, ?_, ?_, ?_⟩
  · intro sh addr av; unfold read_range; rw [hres]
  · intro sh addr d sv; unfold write_range; rw [hres]
  · intro nm ar; unfold run_macro; rw [hres]
  · unfold get_active_info; rw [hab]
  · unfold list_sheets; rw [hres]
  · intro sh dr ct ti pos; unfold create_chart; rw [hres]

/-- C6 instantiated on a host with zero open workbooks. -/
theorem C6_witness :
    read_range noBookHost Option.none Option.none "A1" true =
      (OpResult.fail noActiveError, []) :=
  (C6_theorem noBookHost rfl).1 Option.none "A1" true

/-- C7: whenever the host raises during a macro invocation, `run_macro`
returns a failure result whose error string is the host's own message,
verbatim. -/
theorem C7_theorem (h : Host) (fp : Option String) (nm : String) (ar : Option (List PyVal))
    (wb : Book) (t : List Eff) (msg : String)
    (hres : resolveBook h fp = (Except.ok wb, t))
    (hmac : wb.macroCall nm (argListOf ar) = Except.error msg) :
    run_macro h fp nm ar = (OpResult.fail msg, t ++ [Eff.macroInvoke nm (argListOf ar) false]) := by
  unfold run_macro
  rw [hres]
  simp only [hmac]

/-- C7 instantiated: a nonexistent macro name surfaces Excel's own
message. -/
theorem C7_witness :
    run_macro macroFailHost Option.none "NoSuchMacro" Option.none =
      (OpResult.fail "Cannot run the macro NoSuchMacro",
        [Eff.macroInvoke "NoSuchMacro" [] false]) :=
  C7_theorem macroFailHost Option.none "NoSuchMacro" Option.none macroFailBook []
    "Cannot run the macro NoSuchMacro" rfl rfl

/-- C8: the capability-check mode prints exactly the two reachability
booleans and issues at most the Excel probe (no operation handler runs),
and when xlwings is unavailable the Excel probe is not attempted and
false is reported. -/
theorem C8_theorem (h : Host) (operation : Option String) (p : ParamBag) :
    runMain h true operation p =
      (MainOutcome.printed (Output.checkResult (check_xlwings h) (check_excel h).1),
        (check_excel h).2) ∧
    ((runMain h true operation p).2.all Eff.isCheckCall) = true ∧
    (check_xlwings h = false → check_excel h = (false, [])) := by
  refine ⟨?_, ?_, ?_⟩
  · unfold runMain check_xlwings check_excel
    cases hx : h.xlwingsAvailable <;> simp [hx]
  · unfold runMain check_xlwings check_excel
    cases hx : h.xlwingsAvailable <;> simp [hx, Eff.isCheckCall]
  · intro hx
    unfold check_xlwings at hx
    unfold check_excel
    simp [hx]

/-- C8 instantiated on a host without xlwings: both booleans false and
no Excel probe issued. -/
theorem C8_witness :
    check_xlwings noXwHost = false ∧ check_excel noXwHost = (false, []) :=
  ⟨rfl, (C8_theorem noXwHost Option.none { keys := [] }).2.2 rfl⟩

/-- C9: every successful `list_sheets` returns the resolved workbook's
sheet names in the workbook's order with the count equal to the list's
length; on a workbook with sheets ["Sheet1", "Summary", "Data"] it
returns exactly that list with count 3. -/
theorem C9_theorem :
    (∀ (h : Host) (fp : Option String) (wb : Book) (t : List Eff),
      resolveBook h fp = (Except.ok wb, t) →
      ∀ w ns c, (list_sheets h fp).1 = OpResult.ok (Payload.sheets w ns c) →
        w = wb.name ∧ ns = wb.sheetsList.map Sheet.name ∧ c = ns.length) ∧
    ((list_sheets threeHost Option.none).1 =
      OpResult.ok (Payload.sheets "Report.xlsx" ["Sheet1", "Summary", "Data"] 3)) := by
  constructor
  · intro h fp wb t hres w ns c hc
    unfold list_sheets at hc
    rw [hres] at hc
    simp only at hc
    rcases closeIfOwned_fst wb fp
      (OpResult.ok (Payload.sheets wb.name (wb.sheetsList.map Sheet.name)
        (wb.sheetsList.map Sheet.name).length)) t with h1 | ⟨e, h1⟩
    · rw [h1] at hc
      simp only [OpResult.ok.injEq, Payload.sheets.injEq] at hc
      obtain ⟨hw, hn, hcnt⟩ := hc
      subst hw; subst hn; subst hcnt
      exact ⟨rfl, rfl, rfl⟩
    · rw [h1] at hc; simp at hc
  · rfl

/-- C9 instantiated on the three-sheet workbook. -/
theorem C9_witness :
    "Report.xlsx" = threeBook.name ∧
    ["Sheet1", "Summary", "Data"] = threeBook.sheetsList.map Sheet.name ∧
    (3 : Nat) = (["Sheet1", "Summary", "Data"] : List String).length :=
  C9_theorem.1 threeHost Option.none threeBook [] rfl
    "Report.xlsx" ["Sheet1", "Summary", "Data"] 3 C9_theorem.2
